import Mathlib

/-
  Verification of the MTProto sender core
  (telethon/network/mtproto_sender.py).

  The Python class MtProtoSender is shallowly embedded as a record of its
  mutable attributes together with pure transition functions, one per
  method.  Machine integers follow the Python semantics (unbounded ints;
  the wire codec works on byte lists).  Exceptions are modelled by an
  explicit result type that carries the state reached when the exception
  escapes, since Python exceptions do not roll back prior mutations.

  External collaborators that are not part of this repository (the gzip
  module, the AES/SHA crypto helpers, the generated type library and the
  per-request on_response parsers) enter as abstract function parameters
  collected in an Env record; no claim depends on their internals.
-/

set_option autoImplicit false

/-- Errors that can escape the receive path.  BufferError raised on short
    input (both by the reader and by MtProtoSender._decode_msg) is the
    Truncated error of the spec; BadMessageError carries its code. -/
inductive PyErr where
  | truncated
  | badMessage (code : Int)
  | outOfFuel
deriving DecidableEq, Repr

/-- Little-endian byte decoding of a byte list. -/
def bytesToNatLE : List Nat → Nat
  | [] => 0
  | b :: bs => b + 256 * bytesToNatLE bs

/-- Little-endian encoding of a value into a fixed number of bytes. -/
def natToBytesLE : Nat → Nat → List Nat
  | 0, _ => []
  | k + 1, v => v % 256 :: natToBytesLE k (v / 256)

/-- Reinterpret an unsigned w-bit value as a signed integer. -/
def toSigned (w : Nat) (u : Nat) : Int :=
  if u < 2 ^ (w - 1) then (u : Int) else (u : Int) - 2 ^ w

def writeUIntLE (n : Nat) : List Nat := natToBytesLE 4 n
def writeULongLE (n : Nat) : List Nat := natToBytesLE 8 n
def writeIntLE (i : Int) : List Nat := natToBytesLE 4 (Int.emod i 4294967296).toNat
def writeLongLE (i : Int) : List Nat := natToBytesLE 8 (Int.emod i 18446744073709551616).toNat

/-- Modelled from the spec: the BinaryReader of telethon/extensions is not
    under src/; per spec section 4.1 it is a little-endian reader over a
    byte buffer with absolute positioning, failing with Truncated on short
    input. -/
structure BinaryReader where
  data : List Nat
  pos : Nat
deriving DecidableEq, Repr

def BinaryReader.readBytes (r : BinaryReader) (n : Nat) :
    Except PyErr (List Nat × BinaryReader) :=
  if r.pos + n ≤ r.data.length then
    .ok ((r.data.drop r.pos).take n, ⟨r.data, r.pos + n⟩)
  else .error .truncated

def BinaryReader.readByte (r : BinaryReader) : Except PyErr (Nat × BinaryReader) :=
  if r.pos + 1 ≤ r.data.length then
    .ok (((r.data.drop r.pos).take 1).headD 0, ⟨r.data, r.pos + 1⟩)
  else .error .truncated

/-- read_int(signed=False) -/
def BinaryReader.readUInt (r : BinaryReader) : Except PyErr (Nat × BinaryReader) :=
  if r.pos + 4 ≤ r.data.length then
    .ok (bytesToNatLE ((r.data.drop r.pos).take 4), ⟨r.data, r.pos + 4⟩)
  else .error .truncated

/-- read_int() -/
def BinaryReader.readInt (r : BinaryReader) : Except PyErr (Int × BinaryReader) :=
  if r.pos + 4 ≤ r.data.length then
    .ok (toSigned 32 (bytesToNatLE ((r.data.drop r.pos).take 4)), ⟨r.data, r.pos + 4⟩)
  else .error .truncated

/-- read_long() -/
def BinaryReader.readLong (r : BinaryReader) : Except PyErr (Int × BinaryReader) :=
  if r.pos + 8 ≤ r.data.length then
    .ok (toSigned 64 (bytesToNatLE ((r.data.drop r.pos).take 8)), ⟨r.data, r.pos + 8⟩)
  else .error .truncated

/-- read_long(signed=False) -/
def BinaryReader.readULong (r : BinaryReader) : Except PyErr (Nat × BinaryReader) :=
  if r.pos + 8 ≤ r.data.length then
    .ok (bytesToNatLE ((r.data.drop r.pos).take 8), ⟨r.data, r.pos + 8⟩)
  else .error .truncated

/-- seek(offset): relative positioning. -/
def BinaryReader.seek (r : BinaryReader) (offset : Int) : BinaryReader :=
  ⟨r.data, ((r.pos : Int) + offset).toNat⟩

/-- set_position(p): absolute positioning. -/
def BinaryReader.setPosition (r : BinaryReader) (p : Nat) : BinaryReader :=
  ⟨r.data, p⟩

/-- tgread_bytes(): MTProto length-prefixed byte string with 4-byte padding. -/
def BinaryReader.tgreadBytes (r : BinaryReader) :
    Except PyErr (List Nat × BinaryReader) :=
  match r.readByte with
  | .error e => .error e
  | .ok (first, r1) =>
    if first = 254 then
      match r1.readBytes 3 with
      | .error e => .error e
      | .ok (lb, r2) =>
        let len := bytesToNatLE lb
        match r2.readBytes len with
        | .error e => .error e
        | .ok (dat, r3) =>
          let padding := len % 4
          if padding > 0 then
            match r3.readBytes (4 - padding) with
            | .error e => .error e
            | .ok (_, r4) => .ok (dat, r4)
          else .ok (dat, r3)
    else
      match r1.readBytes first with
      | .error e => .error e
      | .ok (dat, r2) =>
        let padding := (first + 1) % 4
        if padding > 0 then
          match r2.readBytes (4 - padding) with
          | .error e => .error e
          | .ok (_, r3) => .ok (dat, r3)
        else .ok (dat, r2)

/-- Serializer matching tgread_bytes, used to build test frames. -/
def tgwriteBytes (bs : List Nat) : List Nat :=
  if bs.length < 254 then
    let padding := (bs.length + 1) % 4
    [bs.length] ++ bs ++ List.replicate (if padding > 0 then 4 - padding else 0) 0
  else
    254 :: natToBytesLE 3 bs.length ++ bs ++
      List.replicate ((4 - bs.length % 4) % 4) 0

/-- An RpcError value as produced by the error translation. -/
structure RpcErrorV where
  code : Int
  message : List Nat
  reportMethod : Option Nat
deriving DecidableEq, Repr

/-- Modelled from the spec: rpc_message_to_error of telethon/errors is not
    under src/; per spec section 4.5.4 the error taxonomy is a pure
    function of (code, message), optionally annotated with the
    originating request constructor id. -/
def rpcMessageToError (code : Int) (message : List Nat)
    (reportMethod : Option Nat) : RpcErrorV :=
  ⟨code, message, reportMethod⟩

/-- An MTProtoRequest object.  body is the serialization written by
    on_send; responses records the data handed to on_response;
    confirmReceived models the one-shot completion signal. -/
structure Request where
  requestMsgId : Int
  contentRelated : Bool
  constructorId : Nat
  body : List Nat
  confirmReceived : Bool
  error : Option RpcErrorV
  responses : List (List Nat)
deriving DecidableEq, Repr

/-- Modelled from the spec: the Session class of telethon is not under
    src/; fields and operations follow spec sections 3 and 4.3.
    saveCount counts save() calls (the persistence hook). -/
structure Session where
  salt : Nat
  id : Nat
  authKey : List Nat
  authKeyId : Nat
  timeOffset : Int
  lastMsgId : Int
  sequence : Int
  reportErrors : Bool
  saveCount : Nat
deriving DecidableEq, Repr

/-- Modelled from the spec, section 4.3: msg-id derived from the clock,
    aligned so the low two bits are zero, bumped past last_msg_id when
    not strictly greater. -/
def Session.getNewMsgId (s : Session) (nowNanos : Int) : Int × Session :=
  let base := Int.fdiv ((nowNanos + s.timeOffset * 1000000000) * 4294967296) 1000000000
  let aligned := base - Int.emod base 4
  let newId := if s.lastMsgId < aligned then aligned else s.lastMsgId + 4
  (newId, { s with lastMsgId := newId })

/-- Modelled from the spec, section 4.3: 2n for meta messages, 2n+1 with
    the counter incremented for the n-th content-related message. -/
def Session.generateSequence (s : Session) (contentRelated : Bool) : Int × Session :=
  if contentRelated then (s.sequence * 2 + 1, { s with sequence := s.sequence + 1 })
  else (s.sequence * 2, s)

/-- Modelled from the spec, section 4.3: time_offset becomes
    (correct_msg_id >> 32) - current unix seconds; last_msg_id is reset. -/
def Session.updateTimeOffset (s : Session) (nowSeconds : Int) (correctMsgId : Int) : Session :=
  { s with timeOffset := Int.fdiv correctMsgId 4294967296 - nowSeconds,
           lastMsgId := 0 }

/-- save() invokes the persistence hook. -/
def Session.save (s : Session) : Session :=
  { s with saveCount := s.saveCount + 1 }

/-- External collaborators of the sender (gzip, crypto, type library,
    per-request response parsers, the clock), none of which are code of
    this repository.  readObj returns the representation of a decoded
    TLObject together with the position after it; onResponse gives the
    reader position after a request parsed its response. -/
structure Env where
  decompress : List Nat → List Nat
  tlKnown : Nat → Bool
  readObj : List Nat → Nat → Option (List Nat × Nat)
  onResponse : List Nat → Nat → Nat
  calcMsgKey : List Nat → List Nat
  calcKey : List Nat → List Nat → Bool → List Nat × List Nat
  encryptIge : List Nat → List Nat → List Nat → List Nat
  decryptIge : List Nat → List Nat → List Nat → List Nat
  nowNanos : Int
  nowSeconds : Int

/-- The mutable attributes of an MtProtoSender object.  Python holds
    shared references to Request objects: the heap maps object ids to
    Request records and pendingReceive (_pending_receive) lists object
    ids, so that in-place mutation is visible through every alias.
    needConfirmation is _need_confirmation; sent records the byte frames
    written to the connection; sentPackets records the corresponding
    plaintext packets (the arguments of _send_packet, in order);
    callbackLog records TLObjects handed to the unhandled callbacks. -/
structure MtProtoSender where
  connected : Bool
  needConfirmation : List Int
  pendingReceive : List Nat
  heap : List (Nat × Request)
  session : Session
  loggingOut : Bool
  unhandledCallbacks : Bool
  callbackLog : List (List Nat)
  sent : List (List Nat)
  sentPackets : List (List Nat)
deriving DecidableEq, Repr

/-- Result of a Python call: a value, or an escaped exception.  Both
    carry the state at that point, since exceptions do not undo prior
    mutations. -/
inductive PResult (α : Type) where
  | ok (val : α) (st : MtProtoSender)
  | err (e : PyErr) (st : MtProtoSender)
deriving DecidableEq, Repr

def PResult.stateOf {α : Type} : PResult α → MtProtoSender
  | .ok _ st => st
  | .err _ st => st

def PResult.isOk {α : Type} : PResult α → Bool
  | .ok _ _ => true
  | .err _ _ => false

/-- Dereference a Request object id. -/
def getReq : List (Nat × Request) → Nat → Option Request
  | [], _ => none
  | (j, r) :: t, i => if j = i then some r else getReq t i

/-- In-place mutation of the Request object with the given id. -/
def setReq : List (Nat × Request) → Nat → Request → List (Nat × Request)
  | [], _, _ => []
  | (j, r) :: t, i, r' => if j = i then (j, r') :: t else (j, r) :: setReq t i r'

/-- next(r for r in pending if r.request_msg_id == msgId), returning the
    object id together with the Request value, or none on StopIteration. -/
def findIn (heap : List (Nat × Request)) : List Nat → Int → Option (Nat × Request)
  | [], _ => none
  | i :: t, msgId =>
    match getReq heap i with
    | some r => if r.requestMsgId = msgId then some (i, r) else findIn heap t msgId
    | none => findIn heap t msgId

/-- Modelled from the spec: MsgsAck of telethon/tl/types is not under
    src/; per spec section 4.5.2 it serializes as its constructor code
    followed by a bare vector of msg-ids. -/
def serializeMsgsAck (ids : List Int) : List Nat :=
  writeUIntLE 0x62d6b459 ++ writeUIntLE 0x1cb5c415 ++
    writeIntLE ids.length ++ ids.flatMap writeLongLE

/-- _send_packet(packet, request): assigns a fresh msg-id and sequence,
    builds the plaintext envelope, encrypts and writes the wire frame.
    Returns the assigned msg-id. -/
def MtProtoSender.sendPacket (env : Env) (st : MtProtoSender) (packet : List Nat)
    (contentRelated : Bool) : Int × MtProtoSender :=
  let idSess := st.session.getNewMsgId env.nowNanos
  let seqSess := idSess.2.generateSequence contentRelated
  let plain := writeULongLE seqSess.2.salt ++ writeULongLE seqSess.2.id ++
    writeLongLE idSess.1 ++ writeIntLE seqSess.1 ++
    writeIntLE packet.length ++ packet
  let msgKey := env.calcMsgKey plain
  let keyIv := env.calcKey seqSess.2.authKey msgKey true
  let cipher := env.encryptIge plain keyIv.1 keyIv.2
  let wire := writeULongLE seqSess.2.authKeyId ++ msgKey ++ cipher
  (idSess.1, { st with session := seqSess.2,
                       sent := st.sent ++ [wire],
                       sentPackets := st.sentPackets ++ [packet] })

/-- _send_acknowledges(): when _need_confirmation is non-empty, frame and
    transmit a MsgsAck (content_related = false, never put into
    _pending_receive) and clear the queue. -/
def MtProtoSender.sendAcknowledges (env : Env) (st : MtProtoSender) : MtProtoSender :=
  if st.needConfirmation.isEmpty then st
  else
    let st1 := (st.sendPacket env (serializeMsgsAck st.needConfirmation) false).2
    { st1 with needConfirmation := [] }

/-- send(request): flush acknowledges, serialize and send the request
    (assigning its new msg-id), append it to _pending_receive, save the
    session.  The request is denoted by its object id. -/
def MtProtoSender.send (env : Env) (st : MtProtoSender) (i : Nat) : MtProtoSender :=
  let st1 := st.sendAcknowledges env
  match getReq st1.heap i with
  | none => st1
  | some r =>
    let idSt := st1.sendPacket env r.body r.contentRelated
    let st2 := { idSt.2 with
      heap := setReq idSt.2.heap i { r with requestMsgId := idSt.1 },
      pendingReceive := idSt.2.pendingReceive ++ [i] }
    { st2 with session := st2.session.save }

/-- disconnect(): closes the connection if it is open; nothing else. -/
def MtProtoSender.disconnect (st : MtProtoSender) : MtProtoSender :=
  if st.connected then { st with connected := false } else st

/-- _handle_pong: read code and the echoed msg-id, fire the completion
    signal of the matching pending request if any. -/
def MtProtoSender.handlePong (st : MtProtoSender) (reader : BinaryReader) :
    PResult (Bool × BinaryReader) :=
  match reader.readUInt with
  | .error e => .err e st
  | .ok (_, r1) =>
  match r1.readLong with
  | .error e => .err e st
  | .ok (receivedMsgId, r2) =>
    match findIn st.heap st.pendingReceive receivedMsgId with
    | some (i, r) =>
      .ok (true, r2) { st with heap := setReq st.heap i ({ r with confirmReceived := true }) }
    | none => .ok (true, r2) st

/-- _handle_bad_server_salt: overwrite session.salt with the new salt and
    re-send the pending request matching the echoed bad msg-id. -/
def MtProtoSender.handleBadServerSalt (env : Env) (st : MtProtoSender)
    (reader : BinaryReader) : PResult (Bool × BinaryReader) :=
  match reader.readUInt with
  | .error e => .err e st
  | .ok (_, r1) =>
  match r1.readLong with
  | .error e => .err e st
  | .ok (badMsgId, r2) =>
  match r2.readInt with
  | .error e => .err e st
  | .ok (_, r3) =>
  match r3.readInt with
  | .error e => .err e st
  | .ok (_, r4) =>
  match r4.readULong with
  | .error e => .err e st
  | .ok (newSalt, r5) =>
    let st1 := { st with session := { st.session with salt := newSalt } }
    match findIn st1.heap st1.pendingReceive badMsgId with
    | some (i, _) => .ok (true, r5) (st1.send env i)
    | none => .ok (true, r5) st1

/-- _handle_bad_msg_notification: codes 16 and 17 recalibrate the time
    offset from the outer msg-id and save the session; any other code is
    raised as BadMessageError. -/
def MtProtoSender.handleBadMsgNotification (env : Env) (st : MtProtoSender)
    (msgId : Int) (reader : BinaryReader) : PResult (Bool × BinaryReader) :=
  match reader.readUInt with
  | .error e => .err e st
  | .ok (_, r1) =>
  match r1.readLong with
  | .error e => .err e st
  | .ok (_, r2) =>
  match r2.readInt with
  | .error e => .err e st
  | .ok (_, r3) =>
  match r3.readInt with
  | .error e => .err e st
  | .ok (errorCode, r4) =>
    if errorCode = 16 ∨ errorCode = 17 then
      .ok (true, r4)
        { st with session := ((st.session.updateTimeOffset env.nowSeconds msgId).save) }
    else .err (.badMessage errorCode) st

/-- _handle_rpc_result: resolve the pending request by req_msg_id; on
    rpc_error translate, acknowledge immediately, store the error and
    fire completion (the Python branch falls off the function, returning
    None, modelled as false); otherwise hand the (possibly gzip-unpacked)
    reader to on_response and fire completion, or report not-handled when
    no pending request matches. -/
def MtProtoSender.handleRpcResult (env : Env) (st : MtProtoSender)
    (reader : BinaryReader) : PResult (Bool × BinaryReader) :=
  match reader.readUInt with
  | .error e => .err e st
  | .ok (_, r1) =>
  match r1.readLong with
  | .error e => .err e st
  | .ok (requestId, r2) =>
  match r2.readUInt with
  | .error e => .err e st
  | .ok (innerCode, r3) =>
    let found := findIn st.heap st.pendingReceive requestId
    if innerCode = 0x2144ca19 then
      match r3.readInt with
      | .error e => .err e st
      | .ok (errorCode, r4) =>
      match r4.tgreadBytes with
      | .error e => .err e st
      | .ok (errorMessage, r5) =>
        let error := rpcMessageToError errorCode errorMessage
          (if st.session.reportErrors then found.map (fun p => p.2.constructorId) else none)
        let st1 := { st with needConfirmation := st.needConfirmation ++ [requestId] }
        let st2 := st1.sendAcknowledges env
        match found with
        | some (i, r) =>
          let r1 := { r with error := some error, confirmReceived := true }
          .ok (false, r5) { st2 with heap := setReq st2.heap i r1 }
        | none => .ok (false, r5) st2
    else
      match found with
      | some (i, r) =>
        if innerCode = 0x3072cfa1 then
          match r3.tgreadBytes with
          | .error e => .err e st
          | .ok (packedData, r4) =>
            let unpacked := env.decompress packedData
            let rq := { r with responses := r.responses ++ [unpacked],
                               confirmReceived := true }
            .ok (true, r4) { st with heap := setReq st.heap i rq }
        else
          let r4 := r3.seek (-4)
          let resp := r4.data.drop r4.pos
          let r5 := r4.setPosition (env.onResponse r4.data r4.pos)
          let rq := { r with responses := r.responses ++ [resp],
                             confirmReceived := true }
          .ok (true, r5) { st with heap := setReq st.heap i rq }
      | none => .ok (false, r3) st

/-- Modelled from the spec: tgread_object for msgs_ack (generated
    tl code, not under src/) reads the constructor code, the vector
    code, a count and that many msg-ids. -/
def readLongs : Nat → BinaryReader → Except PyErr (List Int × BinaryReader)
  | 0, r => .ok ([], r)
  | n + 1, r =>
    match r.readLong with
    | .error e => .error e
    | .ok (x, r1) =>
      match readLongs n r1 with
      | .error e => .error e
      | .ok (xs, r2) => .ok (x :: xs, r2)

def BinaryReader.parseMsgsAck (r : BinaryReader) :
    Except PyErr (List Int × BinaryReader) :=
  match r.readUInt with
  | .error e => .error e
  | .ok (_, r1) =>
  match r1.readUInt with
  | .error e => .error e
  | .ok (_, r2) =>
  match r2.readInt with
  | .error e => .error e
  | .ok (n, r3) => readLongs n.toNat r3

/-- The msgs_ack loop of _process_msg: for each pending request whose
    msg-id is acknowledged, fire its completion only when logging out. -/
def ackPending (heap : List (Nat × Request)) (pending : List Nat)
    (msgIds : List Int) (loggingOut : Bool) : List (Nat × Request) :=
  match pending with
  | [] => heap
  | i :: t =>
    let h1 :=
      match getReq heap i with
      | some r =>
        if msgIds.contains r.requestMsgId && loggingOut then
          setReq heap i ({ r with confirmReceived := true })
        else heap
      | none => heap
    ackPending h1 t msgIds loggingOut

def MtProtoSender.handleMsgsAck (st : MtProtoSender) (reader : BinaryReader) :
    PResult (Bool × BinaryReader) :=
  match reader.parseMsgsAck with
  | .error e => .err e st
  | .ok (msgIds, r1) =>
    .ok (true, r1)
      { st with heap := ackPending st.heap st.pendingReceive msgIds st.loggingOut }

/-- The inner loop of _handle_container: read each inner header, dispatch
    the inner body, and on a not-handled result skip the reader to
    begin_position + inner_length; an exception propagates (the except
    clause re-raises after seeking). -/
def containerLoop (step : MtProtoSender → Int → BinaryReader → PResult (Bool × BinaryReader)) :
    Nat → MtProtoSender → BinaryReader → PResult BinaryReader
  | 0, st, reader => .ok reader st
  | n + 1, st, reader =>
    match reader.readLong with
    | .error e => .err e st
    | .ok (innerMsgId, r1) =>
    match r1.readInt with
    | .error e => .err e st
    | .ok (_, r2) =>
    match r2.readInt with
    | .error e => .err e st
    | .ok (innerLength, r3) =>
      let beginPosition := r3.pos
      match step st innerMsgId r3 with
      | .err e st1 => .err e st1
      | .ok (handled, rd) st1 =>
        let rd1 := if handled then rd
          else rd.setPosition ((beginPosition : Int) + innerLength).toNat
        containerLoop step n st1 rd1

/-- _handle_container: read the code and the count, then run the loop. -/
def MtProtoSender.handleContainer
    (step : MtProtoSender → Int → BinaryReader → PResult (Bool × BinaryReader))
    (st : MtProtoSender) (reader : BinaryReader) : PResult (Bool × BinaryReader) :=
  match reader.readUInt with
  | .error e => .err e st
  | .ok (_, r1) =>
  match r1.readInt with
  | .error e => .err e st
  | .ok (size, r2) =>
    match containerLoop step size.toNat st r2 with
    | .ok rd st1 => .ok (true, rd) st1
    | .err e st1 => .err e st1

/-- _handle_gzip_packed: read the packed byte string, decompress it and
    recursively dispatch its content under the same outer msg-id. -/
def MtProtoSender.handleGzipPacked (env : Env)
    (step : MtProtoSender → Int → BinaryReader → PResult (Bool × BinaryReader))
    (st : MtProtoSender) (msgId : Int) (reader : BinaryReader) :
    PResult (Bool × BinaryReader) :=
  match reader.readUInt with
  | .error e => .err e st
  | .ok (_, r1) =>
  match r1.tgreadBytes with
  | .error e => .err e st
  | .ok (packedData, r2) =>
    match step st msgId (BinaryReader.mk (env.decompress packedData) 0) with
    | .ok p st1 => .ok (p.1, r2) st1
    | .err e st1 => .err e st1

/-- _process_msg(msg_id, sequence, reader): queue the msg-id for
    acknowledgement, peek the constructor code (read then seek back) and
    dispatch.  The recursion through containers and gzip is bounded by
    fuel, which the Python code never exhausts. -/
def MtProtoSender.processMsg (env : Env) :
    Nat → MtProtoSender → Int → Int → BinaryReader → PResult (Bool × BinaryReader)
  | 0, st, _, _, _ => .err .outOfFuel st
  | fuel + 1, st, msgId, seq, reader =>
    let st1 := { st with needConfirmation := st.needConfirmation ++ [msgId] }
    match reader.readUInt with
    | .error e => .err e st1
    | .ok (code, rd) =>
      let reader1 := rd.seek (-4)
      if code = 0xf35c6d01 then st1.handleRpcResult env reader1
      else if code = 0x347773c5 then st1.handlePong reader1
      else if code = 0x73f1f8dc then
        MtProtoSender.handleContainer
          (fun s m r => MtProtoSender.processMsg env fuel s m seq r) st1 reader1
      else if code = 0x3072cfa1 then
        MtProtoSender.handleGzipPacked env
          (fun s m r => MtProtoSender.processMsg env fuel s m seq r) st1 msgId reader1
      else if code = 0xedab447b then st1.handleBadServerSalt env reader1
      else if code = 0xa7eff811 then st1.handleBadMsgNotification env msgId reader1
      else if code = 0x62d6b459 then st1.handleMsgsAck reader1
      else if env.tlKnown code then
        match env.readObj reader1.data reader1.pos with
        | none => .err .truncated st1
        | some (obj, p2) =>
          .ok (true, reader1.setPosition p2)
            (if st1.unhandledCallbacks then
              { st1 with callbackLog := st1.callbackLog ++ [obj] }
            else st1)
      else .ok (false, reader1) st1

/-- _decode_msg(body): strip auth_key_id and msg_key, decrypt, and
    extract (payload, remote msg-id, remote sequence). -/
def MtProtoSender.decodeMsg (env : Env) (session : Session) (body : List Nat) :
    Except PyErr (List Nat × Int × Int) :=
  if body.length < 8 then .error .truncated
  else
    match (BinaryReader.mk body 0).readULong with
    | .error e => .error e
    | .ok (_, r1) =>
    match r1.readBytes 16 with
    | .error e => .error e
    | .ok (msgKey, r2) =>
      let keyIv := env.calcKey session.authKey msgKey false
      let plainText := env.decryptIge (r2.data.drop r2.pos) keyIv.1 keyIv.2
      match (BinaryReader.mk plainText 0).readULong with
      | .error e => .error e
      | .ok (_, p1) =>
      match p1.readULong with
      | .error e => .error e
      | .ok (_, p2) =>
      match p2.readLong with
      | .error e => .error e
      | .ok (remoteMsgId, p3) =>
      match p3.readInt with
      | .error e => .error e
      | .ok (remoteSeq, p4) =>
      match p4.readInt with
      | .error e => .error e
      | .ok (msgLen, p5) =>
      match p5.readBytes msgLen.toNat with
      | .error e => .error e
      | .ok (message, _) => .ok (message, remoteMsgId, remoteSeq)

/-- receive(): read one frame from the connection, decode it and process
    the payload. -/
def MtProtoSender.receive (env : Env) (fuel : Nat) (st : MtProtoSender)
    (body : List Nat) : PResult Unit :=
  match MtProtoSender.decodeMsg env st.session body with
  | .error e => .err e st
  | .ok (message, remoteMsgId, remoteSeq) =>
    match MtProtoSender.processMsg env fuel st remoteMsgId remoteSeq
        (BinaryReader.mk message 0) with
    | .ok _ st1 => .ok () st1
    | .err e st1 => .err e st1

/-- A trivial instantiation of the external collaborators, used for the
    concrete test frames: decompression is the identity, the type
    library knows no constructor, crypto is the identity. -/
def env0 : Env :=
  { decompress := fun bs => bs
    tlKnown := fun _ => false
    readObj := fun _ _ => none
    onResponse := fun _ p => p
    calcMsgKey := fun _ => List.replicate 16 0
    calcKey := fun _ _ _ => (List.replicate 32 0, List.replicate 32 0)
    encryptIge := fun p _ _ => p
    decryptIge := fun c _ _ => c
    nowNanos := 0
    nowSeconds := 0 }

def sess0 : Session :=
  { salt := 1, id := 2, authKey := [], authKeyId := 3, timeOffset := 0,
    lastMsgId := 100, sequence := 0, reportErrors := true, saveCount := 0 }

def req0 : Request :=
  { requestMsgId := 100, contentRelated := true, constructorId := 7,
    body := [1, 2, 3, 4], confirmReceived := false, error := none,
    responses := [] }

def req1 : Request :=
  { requestMsgId := 200, contentRelated := true, constructorId := 9,
    body := [5, 6, 7, 8], confirmReceived := false, error := none,
    responses := [] }

/-- A sender with one pending request (object id 0, msg-id 100). -/
def st0 : MtProtoSender :=
  { connected := true, needConfirmation := [], pendingReceive := [0],
    heap := [(0, req0)], session := sess0, loggingOut := false,
    unhandledCallbacks := false, callbackLog := [], sent := [],
    sentPackets := [] }

/-- A sender with two pending requests (ids 0 and 1, msg-ids 100, 200). -/
def st2 : MtProtoSender :=
  { st0 with pendingReceive := [0, 1], heap := [(0, req0), (1, req1)] }

/-- Payload builders for concrete test frames. -/
def pongFrame (m : Int) : List Nat := writeUIntLE 0x347773c5 ++ writeLongLE m

def badServerSaltFrame (badId : Int) (salt : Nat) : List Nat :=
  writeUIntLE 0xedab447b ++ writeLongLE badId ++ writeIntLE 0 ++
    writeIntLE 48 ++ writeULongLE salt

def badMsgFrame (errorCode : Int) : List Nat :=
  writeUIntLE 0xa7eff811 ++ writeLongLE 0 ++ writeIntLE 0 ++ writeIntLE errorCode

def gzipFrame (bs : List Nat) : List Nat :=
  writeUIntLE 0x3072cfa1 ++ tgwriteBytes bs

def containerEntry (m : Int) (body : List Nat) : List Nat :=
  writeLongLE m ++ writeIntLE 0 ++ writeIntLE body.length ++ body

def containerFrame (entries : List (Int × List Nat)) : List Nat :=
  writeUIntLE 0x73f1f8dc ++ writeIntLE entries.length ++
    entries.flatMap (fun p => containerEntry p.1 p.2)

def rpcErrorFrame (reqId : Int) (code : Int) (msg : List Nat) : List Nat :=
  writeUIntLE 0xf35c6d01 ++ writeLongLE reqId ++ writeUIntLE 0x2144ca19 ++
    writeIntLE code ++ tgwriteBytes msg

def rpcResultFrame (reqId : Int) (rest : List Nat) : List Nat :=
  writeUIntLE 0xf35c6d01 ++ writeLongLE reqId ++ rest

/-- Container with a pong for request 0, an unknown-code message, and a
    pong for request 1. -/
def c3bFrame : List Nat :=
  containerFrame [(601, pongFrame 100), (602, writeUIntLE 0x11223344 ++ [9, 9]),
    (603, pongFrame 200)]

/-! Helper lemmas about the reader and the send path. -/

theorem readUInt_ok_dest {r r1 : BinaryReader} {c : Nat}
    (h : r.readUInt = Except.ok (c, r1)) : r1 = ⟨r.data, r.pos + 4⟩ := by
  unfold BinaryReader.readUInt at h
  split at h
  · injection h with h'
    injection h' with h1 h2
    exact h2.symm
  · exact absurd h (by simp)

theorem seek_back_readUInt {r r1 : BinaryReader} {c : Nat}
    (h : r.readUInt = Except.ok (c, r1)) : r1.seek (-4) = r := by
  rw [readUInt_ok_dest h]
  show BinaryReader.mk r.data (((r.pos + 4 : Nat) : Int) + -4).toNat = r
  have h4 : (((r.pos + 4 : Nat) : Int) + -4).toNat = r.pos := by omega
  rw [h4]

theorem getReq_setReq_self {heap : List (Nat × Request)} {i : Nat} {r : Request}
    (h : getReq heap i = some r) (r' : Request) :
    getReq (setReq heap i r') i = some r' := by
  induction heap with
  | nil => simp [getReq] at h
  | cons p t ih =>
    by_cases hj : p.1 = i
    · simp [getReq, setReq, hj]
    · simp [getReq, setReq, hj] at h ⊢
      exact ih h

theorem findIn_spec {heap : List (Nat × Request)} {pending : List Nat} {m : Int}
    {i : Nat} {r : Request} (h : findIn heap pending m = some (i, r)) :
    i ∈ pending ∧ getReq heap i = some r ∧ r.requestMsgId = m := by
  induction pending with
  | nil => simp [findIn] at h
  | cons j t ih =>
    rw [findIn] at h
    cases hg : getReq heap j with
    | none =>
      simp only [hg] at h
      rcases ih h with ⟨h1, h2, h3⟩
      exact ⟨List.mem_cons_of_mem _ h1, h2, h3⟩
    | some q =>
      simp only [hg] at h
      by_cases hm : q.requestMsgId = m
      · rw [if_pos hm] at h
        injection h with h'
        injection h' with hi hr
        subst hi; subst hr
        exact ⟨List.mem_cons_self _ _, hg, hm⟩
      · rw [if_neg hm] at h
        rcases ih h with ⟨h1, h2, h3⟩
        exact ⟨List.mem_cons_of_mem _ h1, h2, h3⟩

theorem getNewMsgId_fst_gt (s : Session) (now : Int) :
    s.lastMsgId < (s.getNewMsgId now).1 := by
  unfold Session.getNewMsgId
  dsimp only
  split
  · assumption
  · omega

theorem getNewMsgId_snd (s : Session) (now : Int) :
    (s.getNewMsgId now).2 = { s with lastMsgId := (s.getNewMsgId now).1 } := by
  unfold Session.getNewMsgId
  dsimp only

theorem generateSequence_salt (s : Session) (cr : Bool) :
    (s.generateSequence cr).2.salt = s.salt := by
  unfold Session.generateSequence
  split <;> rfl

theorem generateSequence_lastMsgId (s : Session) (cr : Bool) :
    (s.generateSequence cr).2.lastMsgId = s.lastMsgId := by
  unfold Session.generateSequence
  split <;> rfl

theorem sendPacket_heap (env : Env) (st : MtProtoSender) (p : List Nat) (cr : Bool) :
    (st.sendPacket env p cr).2.heap = st.heap := rfl

theorem sendPacket_pending (env : Env) (st : MtProtoSender) (p : List Nat) (cr : Bool) :
    (st.sendPacket env p cr).2.pendingReceive = st.pendingReceive := rfl

theorem sendPacket_needConfirmation (env : Env) (st : MtProtoSender) (p : List Nat) (cr : Bool) :
    (st.sendPacket env p cr).2.needConfirmation = st.needConfirmation := rfl

theorem sendPacket_sentPackets (env : Env) (st : MtProtoSender) (p : List Nat) (cr : Bool) :
    (st.sendPacket env p cr).2.sentPackets = st.sentPackets ++ [p] := rfl

theorem sendPacket_fst_gt (env : Env) (st : MtProtoSender) (p : List Nat) (cr : Bool) :
    st.session.lastMsgId < (st.sendPacket env p cr).1 :=
  getNewMsgId_fst_gt st.session env.nowNanos

theorem sendPacket_lastMsgId (env : Env) (st : MtProtoSender) (p : List Nat) (cr : Bool) :
    (st.sendPacket env p cr).2.session.lastMsgId = (st.sendPacket env p cr).1 := by
  show ((st.session.getNewMsgId env.nowNanos).2.generateSequence cr).2.lastMsgId
    = (st.session.getNewMsgId env.nowNanos).1
  rw [generateSequence_lastMsgId, getNewMsgId_snd]

theorem sendPacket_salt (env : Env) (st : MtProtoSender) (p : List Nat) (cr : Bool) :
    (st.sendPacket env p cr).2.session.salt = st.session.salt := by
  show ((st.session.getNewMsgId env.nowNanos).2.generateSequence cr).2.salt
    = st.session.salt
  rw [generateSequence_salt, getNewMsgId_snd]

theorem sendAcknowledges_heap (env : Env) (st : MtProtoSender) :
    (st.sendAcknowledges env).heap = st.heap := by
  unfold MtProtoSender.sendAcknowledges
  split <;> rfl

theorem sendAcknowledges_pending (env : Env) (st : MtProtoSender) :
    (st.sendAcknowledges env).pendingReceive = st.pendingReceive := by
  unfold MtProtoSender.sendAcknowledges
  split <;> rfl

theorem sendAcknowledges_salt (env : Env) (st : MtProtoSender) :
    (st.sendAcknowledges env).session.salt = st.session.salt := by
  unfold MtProtoSender.sendAcknowledges
  split <;> rfl

theorem sendAcknowledges_lastMsgId_ge (env : Env) (st : MtProtoSender) :
    st.session.lastMsgId ≤ (st.sendAcknowledges env).session.lastMsgId := by
  unfold MtProtoSender.sendAcknowledges
  split
  · exact le_refl _
  · show st.session.lastMsgId ≤
      (st.sendPacket env (serializeMsgsAck st.needConfirmation) false).2.session.lastMsgId
    rw [sendPacket_lastMsgId]
    exact le_of_lt (sendPacket_fst_gt env st _ false)

theorem sendAcknowledges_of_ne (env : Env) (st : MtProtoSender)
    (h : st.needConfirmation ≠ []) :
    st.sendAcknowledges env =
      { (st.sendPacket env (serializeMsgsAck st.needConfirmation) false).2 with
        needConfirmation := [] } := by
  unfold MtProtoSender.sendAcknowledges
  rw [if_neg (by simpa using h)]

/-- Claim C10: a pong whose echoed msg-id matches no pending request is a
    no-op apart from queueing the outer msg-id for acknowledgement: no
    error, pending table, heap and session untouched, message reported
    handled. -/
theorem c10_pong_unknown (env : Env) (fuel : Nat) (st : MtProtoSender)
    (msgId seq m : Int) (reader r1 r2 : BinaryReader)
    (h1 : reader.readUInt = Except.ok (0x347773c5, r1))
    (h2 : r1.readLong = Except.ok (m, r2))
    (hf : findIn st.heap st.pendingReceive m = none) :
    MtProtoSender.processMsg env (fuel + 1) st msgId seq reader
      = PResult.ok (true, r2)
          { st with needConfirmation := st.needConfirmation ++ [msgId] } := by
  have hs := seek_back_readUInt h1
  simp only [MtProtoSender.processMsg, h1, hs]
  norm_num [MtProtoSender.handlePong, h1, h2, hf]

theorem c10_witness :
    (BinaryReader.mk (pongFrame 999) 0).readUInt
        = Except.ok (0x347773c5, BinaryReader.mk (pongFrame 999) 4) ∧
    (BinaryReader.mk (pongFrame 999) 4).readLong
        = Except.ok (999, BinaryReader.mk (pongFrame 999) 12) ∧
    findIn st0.heap st0.pendingReceive 999 = none ∧
    MtProtoSender.processMsg env0 1 st0 500 0 (BinaryReader.mk (pongFrame 999) 0)
      = PResult.ok (true, BinaryReader.mk (pongFrame 999) 12)
          { st0 with needConfirmation := st0.needConfirmation ++ [500] } :=
  ⟨rfl, rfl, rfl,
    c10_pong_unknown env0 0 st0 500 0 999 (BinaryReader.mk (pongFrame 999) 0)
      (BinaryReader.mk (pongFrame 999) 4) (BinaryReader.mk (pongFrame 999) 12)
      rfl rfl rfl⟩

/-- Claim C1, counterexample: a pong echoing pending msg-id 100 fires the
    completion signal, yet the request entry is still in the pending
    table afterward — the handler never removes it, contradicting the
    claimed removal on terminal reply. -/
theorem c1_counterexample :
    (MtProtoSender.processMsg env0 1 st0 500 0
        (BinaryReader.mk (pongFrame 100) 0)).isOk = true ∧
    getReq (MtProtoSender.processMsg env0 1 st0 500 0
        (BinaryReader.mk (pongFrame 100) 0)).stateOf.heap 0
      = some { req0 with confirmReceived := true } ∧
    (MtProtoSender.processMsg env0 1 st0 500 0
        (BinaryReader.mk (pongFrame 100) 0)).stateOf.pendingReceive = [0] := by
  refine ⟨rfl, rfl, rfl⟩

/-- Claim C1 as amended: handling a terminal reply addressed to a pending
    request — a pong echoing its msg-id, or an rpc_result carrying its
    req_msg_id (plain or rpc_error) — fires the request's completion
    signal, but the request's entry is NOT removed: the pending table is
    left unchanged (the code never deletes from _pending_receive). -/
theorem c1_amended :
    (∀ (env : Env) (fuel : Nat) (st : MtProtoSender) (msgId seq m : Int)
        (i : Nat) (r : Request) (reader r1 r2 : BinaryReader),
      reader.readUInt = Except.ok (0x347773c5, r1) →
      r1.readLong = Except.ok (m, r2) →
      findIn st.heap st.pendingReceive m = some (i, r) →
      MtProtoSender.processMsg env (fuel + 1) st msgId seq reader
        = PResult.ok (true, r2)
            { st with needConfirmation := st.needConfirmation ++ [msgId],
                      heap := setReq st.heap i ({ r with confirmReceived := true }) }) ∧
    (∀ (env : Env) (fuel : Nat) (st : MtProtoSender) (msgId seq m : Int) (ic : Nat)
        (i : Nat) (r : Request) (reader r1 r2 r3 : BinaryReader),
      reader.readUInt = Except.ok (0xf35c6d01, r1) →
      r1.readLong = Except.ok (m, r2) →
      r2.readUInt = Except.ok (ic, r3) →
      ic ≠ 0x2144ca19 → ic ≠ 0x3072cfa1 →
      findIn st.heap st.pendingReceive m = some (i, r) →
      (MtProtoSender.processMsg env (fuel + 1) st msgId seq reader).isOk = true ∧
      (MtProtoSender.processMsg env (fuel + 1) st msgId seq reader).stateOf.pendingReceive
        = st.pendingReceive ∧
      ∃ r', getReq (MtProtoSender.processMsg env (fuel + 1) st msgId seq
              reader).stateOf.heap i = some r' ∧ r'.confirmReceived = true) ∧
    (∀ (env : Env) (fuel : Nat) (st : MtProtoSender) (msgId seq m ec : Int)
        (i : Nat) (r : Request) (emsg : List Nat) (reader r1 r2 r3 r4 r5 : BinaryReader),
      reader.readUInt = Except.ok (0xf35c6d01, r1) →
      r1.readLong = Except.ok (m, r2) →
      r2.readUInt = Except.ok (0x2144ca19, r3) →
      r3.readInt = Except.ok (ec, r4) →
      r4.tgreadBytes = Except.ok (emsg, r5) →
      findIn st.heap st.pendingReceive m = some (i, r) →
      (MtProtoSender.processMsg env (fuel + 1) st msgId seq reader).stateOf.pendingReceive
        = st.pendingReceive ∧
      ∃ r', getReq (MtProtoSender.processMsg env (fuel + 1) st msgId seq
              reader).stateOf.heap i = some r' ∧ r'.confirmReceived = true) := by
  refine ⟨?_, ?_, ?_⟩
  · intro env fuel st msgId seq m i r reader r1 r2 h1 h2 hf
    have hs := seek_back_readUInt h1
    simp only [MtProtoSender.processMsg, h1, hs]
    norm_num [MtProtoSender.handlePong, h1, h2, hf]
  · intro env fuel st msgId seq m ic i r reader r1 r2 r3 h1 h2 h3 hic1 hic2 hf
    have hs := seek_back_readUInt h1
    refine ⟨?_, ?_, ?_⟩
    · simp only [MtProtoSender.processMsg, h1, hs]
      norm_num [MtProtoSender.handleRpcResult, h1, h2, h3, hf, hic1, hic2,
        PResult.isOk]
    · simp only [MtProtoSender.processMsg, h1, hs]
      norm_num [MtProtoSender.handleRpcResult, h1, h2, h3, hf, hic1, hic2,
        PResult.stateOf]
    · simp only [MtProtoSender.processMsg, h1, hs]
      norm_num [MtProtoSender.handleRpcResult, h1, h2, h3, hf, hic1, hic2,
        PResult.stateOf]
      exact ⟨_, getReq_setReq_self (findIn_spec hf).2.1 _, rfl⟩
  · intro env fuel st msgId seq m ec i r emsg reader r1 r2 r3 r4 r5 h1 h2 h3 h4 h5 hf
    have hs := seek_back_readUInt h1
    refine ⟨?_, ?_⟩
    · simp only [MtProtoSender.processMsg, h1, hs]
      norm_num [MtProtoSender.handleRpcResult, h1, h2, h3, h4, h5, hf,
        PResult.stateOf, sendAcknowledges_pending]
    · simp only [MtProtoSender.processMsg, h1, hs]
      norm_num [MtProtoSender.handleRpcResult, h1, h2, h3, h4, h5, hf,
        PResult.stateOf, sendAcknowledges_heap]
      exact ⟨_, getReq_setReq_self (findIn_spec hf).2.1 _, rfl⟩

theorem c1_witness :
    (BinaryReader.mk (pongFrame 100) 0).readUInt
        = Except.ok (0x347773c5, BinaryReader.mk (pongFrame 100) 4) ∧
    (BinaryReader.mk (pongFrame 100) 4).readLong
        = Except.ok (100, BinaryReader.mk (pongFrame 100) 12) ∧
    findIn st0.heap st0.pendingReceive 100 = some (0, req0) ∧
    MtProtoSender.processMsg env0 1 st0 500 0 (BinaryReader.mk (pongFrame 100) 0)
      = PResult.ok (true, BinaryReader.mk (pongFrame 100) 12)
          { st0 with needConfirmation := st0.needConfirmation ++ [500],
                     heap := setReq st0.heap 0 ({ req0 with confirmReceived := true }) } :=
  ⟨rfl, rfl, rfl,
    c1_amended.1 env0 0 st0 500 0 100 0 req0 (BinaryReader.mk (pongFrame 100) 0)
      (BinaryReader.mk (pongFrame 100) 4) (BinaryReader.mk (pongFrame 100) 12)
      rfl rfl rfl⟩

/-- Claim C5, counterexample: disconnecting a sender with a pending
    request leaves the pending table non-empty and the request without a
    fired completion signal or an error — nothing is cleared or
    released. -/
theorem c5_counterexample :
    st0.connected = true ∧
    (MtProtoSender.disconnect st0).pendingReceive = [0] ∧
    getReq (MtProtoSender.disconnect st0).heap 0 = some req0 ∧
    req0.confirmReceived = false ∧ req0.error = none := by
  refine ⟨rfl, rfl, rfl, rfl, rfl⟩

/-- Claim C5 as amended: disconnect only closes the transport; the
    pending table is not cleared and no completion signal is released
    with a disconnection error (requests keep their state). -/
theorem c5_amended (st : MtProtoSender) :
    (MtProtoSender.disconnect st).pendingReceive = st.pendingReceive ∧
    (MtProtoSender.disconnect st).heap = st.heap ∧
    (MtProtoSender.disconnect st).connected = false := by
  unfold MtProtoSender.disconnect
  split
  · exact ⟨rfl, rfl, rfl⟩
  · next h => exact ⟨rfl, rfl, by simpa using h⟩

/-- Claim C7: a bad_msg_notification with error code 16 or 17
    recalibrates session.time_offset from the outer msg-id and saves the
    session, returning success; any other code raises
    BadMessageError(code) with the session untouched. -/
theorem c7_bad_msg_notification (env : Env) (fuel : Nat) (st : MtProtoSender)
    (msgId seq reqId sq ec : Int) (reader r1 r2 r3 r4 : BinaryReader)
    (h1 : reader.readUInt = Except.ok (0xa7eff811, r1))
    (h2 : r1.readLong = Except.ok (reqId, r2))
    (h3 : r2.readInt = Except.ok (sq, r3))
    (h4 : r3.readInt = Except.ok (ec, r4)) :
    ((ec = 16 ∨ ec = 17) →
      MtProtoSender.processMsg env (fuel + 1) st msgId seq reader
        = PResult.ok (true, r4)
            { st with needConfirmation := st.needConfirmation ++ [msgId],
                      session := ((st.session.updateTimeOffset env.nowSeconds msgId).save) }) ∧
    (ec ≠ 16 → ec ≠ 17 →
      MtProtoSender.processMsg env (fuel + 1) st msgId seq reader
        = PResult.err (PyErr.badMessage ec)
            { st with needConfirmation := st.needConfirmation ++ [msgId] }) := by
  have hs := seek_back_readUInt h1
  constructor
  · intro hec
    simp only [MtProtoSender.processMsg, h1, hs]
    norm_num [MtProtoSender.handleBadMsgNotification, h1, h2, h3, h4, hec]
  · intro hne1 hne2
    simp only [MtProtoSender.processMsg, h1, hs]
    norm_num [MtProtoSender.handleBadMsgNotification, h1, h2, h3, h4, hne1, hne2]

theorem c7_witness :
    (BinaryReader.mk (badMsgFrame 16) 0).readUInt
        = Except.ok (0xa7eff811, BinaryReader.mk (badMsgFrame 16) 4) ∧
    (BinaryReader.mk (badMsgFrame 16) 4).readLong
        = Except.ok (0, BinaryReader.mk (badMsgFrame 16) 12) ∧
    (BinaryReader.mk (badMsgFrame 16) 12).readInt
        = Except.ok (0, BinaryReader.mk (badMsgFrame 16) 16) ∧
    (BinaryReader.mk (badMsgFrame 16) 16).readInt
        = Except.ok (16, BinaryReader.mk (badMsgFrame 16) 20) ∧
    MtProtoSender.processMsg env0 1 st0 900 0 (BinaryReader.mk (badMsgFrame 16) 0)
      = PResult.ok (true, BinaryReader.mk (badMsgFrame 16) 20)
          { st0 with needConfirmation := st0.needConfirmation ++ [900],
                     session := ((st0.session.updateTimeOffset env0.nowSeconds 900).save) } ∧
    MtProtoSender.processMsg env0 1 st0 901 0 (BinaryReader.mk (badMsgFrame 99) 0)
      = PResult.err (PyErr.badMessage 99)
          { st0 with needConfirmation := st0.needConfirmation ++ [901] } :=
  ⟨rfl, rfl, rfl, rfl,
    (c7_bad_msg_notification env0 0 st0 900 0 0 0 16
      (BinaryReader.mk (badMsgFrame 16) 0) (BinaryReader.mk (badMsgFrame 16) 4)
      (BinaryReader.mk (badMsgFrame 16) 12) (BinaryReader.mk (badMsgFrame 16) 16)
      (BinaryReader.mk (badMsgFrame 16) 20) rfl rfl rfl rfl).1 (Or.inl rfl),
    (c7_bad_msg_notification env0 0 st0 901 0 0 0 99
      (BinaryReader.mk (badMsgFrame 99) 0) (BinaryReader.mk (badMsgFrame 99) 4)
      (BinaryReader.mk (badMsgFrame 99) 12) (BinaryReader.mk (badMsgFrame 99) 16)
      (BinaryReader.mk (badMsgFrame 99) 20) rfl rfl rfl rfl).2
      (by decide) (by decide)⟩

/-- Claim C9: any wire frame shorter than 24 bytes (auth_key_id, msg_key
    and one AES block) fails to decode with the Truncated error. -/
theorem c9_truncated (env : Env) (session : Session) (body : List Nat)
    (h : body.length < 24) :
    MtProtoSender.decodeMsg env session body = Except.error PyErr.truncated := by
  unfold MtProtoSender.decodeMsg
  by_cases h8 : body.length < 8
  · rw [if_pos h8]
  · rw [if_neg h8]
    have hU : (BinaryReader.mk body 0).readULong
        = Except.ok (bytesToNatLE ((body.drop 0).take 8), BinaryReader.mk body 8) := by
      unfold BinaryReader.readULong
      rw [if_pos (by simp; omega)]
    have hB : (BinaryReader.mk body 8).readBytes 16 = Except.error PyErr.truncated := by
      unfold BinaryReader.readBytes
      rw [if_neg (by simp; omega)]
    simp only [hU, hB]

theorem c9_witness :
    (List.replicate 10 0).length < 24 ∧
    MtProtoSender.decodeMsg env0 sess0 (List.replicate 10 0)
      = Except.error PyErr.truncated :=
  ⟨by decide, c9_truncated env0 sess0 (List.replicate 10 0) (by decide)⟩

/-- Claim C8: an rpc_result (non-error) whose req_msg_id matches no
    pending request is reported not-handled to the caller, and the
    container loop reacts to a not-handled inner message by setting the
    reader to the begin position plus the declared inner length and
    continuing with the next sibling. -/
theorem c8_lost_result_skipped :
    (∀ (env : Env) (fuel : Nat) (st : MtProtoSender) (msgId seq m : Int) (ic : Nat)
        (reader r1 r2 r3 : BinaryReader),
      reader.readUInt = Except.ok (0xf35c6d01, r1) →
      r1.readLong = Except.ok (m, r2) →
      r2.readUInt = Except.ok (ic, r3) →
      ic ≠ 0x2144ca19 →
      findIn st.heap st.pendingReceive m = none →
      MtProtoSender.processMsg env (fuel + 1) st msgId seq reader
        = PResult.ok (false, r3)
            { st with needConfirmation := st.needConfirmation ++ [msgId] }) ∧
    (∀ (env : Env) (fuel n : Nat) (st st1 : MtProtoSender)
        (seq innerId isq ilen : Int) (reader r1 r2 r3 rd : BinaryReader),
      reader.readLong = Except.ok (innerId, r1) →
      r1.readInt = Except.ok (isq, r2) →
      r2.readInt = Except.ok (ilen, r3) →
      MtProtoSender.processMsg env fuel st innerId seq r3 = PResult.ok (false, rd) st1 →
      containerLoop (fun s m r => MtProtoSender.processMsg env fuel s m seq r)
          (n + 1) st reader
        = containerLoop (fun s m r => MtProtoSender.processMsg env fuel s m seq r)
            n st1 (rd.setPosition ((r3.pos : Int) + ilen).toNat)) := by
  constructor
  · intro env fuel st msgId seq m ic reader r1 r2 r3 h1 h2 h3 hic hf
    have hs := seek_back_readUInt h1
    simp only [MtProtoSender.processMsg, h1, hs]
    norm_num [MtProtoSender.handleRpcResult, h1, h2, h3, hic, hf]
  · intro env fuel n st st1 seq innerId isq ilen reader r1 r2 r3 rd h1 h2 h3 hstep
    simp only [containerLoop, h1, h2, h3, hstep]
    norm_num

theorem c8_witness :
    (BinaryReader.mk (rpcResultFrame 999 (writeUIntLE 0x11111111)) 0).readUInt
        = Except.ok (0xf35c6d01,
            BinaryReader.mk (rpcResultFrame 999 (writeUIntLE 0x11111111)) 4) ∧
    (BinaryReader.mk (rpcResultFrame 999 (writeUIntLE 0x11111111)) 4).readLong
        = Except.ok (999,
            BinaryReader.mk (rpcResultFrame 999 (writeUIntLE 0x11111111)) 12) ∧
    (BinaryReader.mk (rpcResultFrame 999 (writeUIntLE 0x11111111)) 12).readUInt
        = Except.ok (0x11111111,
            BinaryReader.mk (rpcResultFrame 999 (writeUIntLE 0x11111111)) 16) ∧
    findIn st0.heap st0.pendingReceive 999 = none ∧
    MtProtoSender.processMsg env0 1 st0 910 0
        (BinaryReader.mk (rpcResultFrame 999 (writeUIntLE 0x11111111)) 0)
      = PResult.ok (false,
            BinaryReader.mk (rpcResultFrame 999 (writeUIntLE 0x11111111)) 16)
          { st0 with needConfirmation := st0.needConfirmation ++ [910] } :=
  ⟨rfl, rfl, rfl, rfl,
    c8_lost_result_skipped.1 env0 0 st0 910 0 999 0x11111111
      (BinaryReader.mk (rpcResultFrame 999 (writeUIntLE 0x11111111)) 0)
      (BinaryReader.mk (rpcResultFrame 999 (writeUIntLE 0x11111111)) 4)
      (BinaryReader.mk (rpcResultFrame 999 (writeUIntLE 0x11111111)) 12)
      (BinaryReader.mk (rpcResultFrame 999 (writeUIntLE 0x11111111)) 16)
      rfl rfl rfl (by decide) rfl⟩

/-- Claim C6: an rpc_result carrying inner code 0x2144ca19 (rpc_error)
    for a pending request reads the code and message, translates them by
    the pure error translation (annotated with the request constructor id
    when report_errors is set), appends the acknowledged msg-id to the
    ack queue and flushes it at once, stores the error on the request and
    fires its completion signal. -/
theorem c6_rpc_error (env : Env) (fuel : Nat) (st : MtProtoSender)
    (msgId seq m ec : Int) (i : Nat) (r : Request) (emsg : List Nat)
    (reader r1 r2 r3 r4 r5 : BinaryReader)
    (h1 : reader.readUInt = Except.ok (0xf35c6d01, r1))
    (h2 : r1.readLong = Except.ok (m, r2))
    (h3 : r2.readUInt = Except.ok (0x2144ca19, r3))
    (h4 : r3.readInt = Except.ok (ec, r4))
    (h5 : r4.tgreadBytes = Except.ok (emsg, r5))
    (hf : findIn st.heap st.pendingReceive m = some (i, r)) :
    (MtProtoSender.processMsg env (fuel + 1) st msgId seq reader).stateOf.needConfirmation
      = [] ∧
    (MtProtoSender.processMsg env (fuel + 1) st msgId seq reader).stateOf.sentPackets
      = st.sentPackets ++ [serializeMsgsAck (st.needConfirmation ++ [msgId] ++ [m])] ∧
    getReq (MtProtoSender.processMsg env (fuel + 1) st msgId seq reader).stateOf.heap i
      = some { r with
          error := some (rpcMessageToError ec emsg
            (if st.session.reportErrors then some r.constructorId else none)),
          confirmReceived := true } := by
  have hs := seek_back_readUInt h1
  refine ⟨?_, ?_, ?_⟩
  · simp only [MtProtoSender.processMsg, h1, hs]
    norm_num [MtProtoSender.handleRpcResult, h1, h2, h3, h4, h5, hf, PResult.stateOf]
    rw [sendAcknowledges_of_ne]
    simp
  · simp only [MtProtoSender.processMsg, h1, hs]
    norm_num [MtProtoSender.handleRpcResult, h1, h2, h3, h4, h5, hf, PResult.stateOf]
    rw [sendAcknowledges_of_ne]
    · simp [MtProtoSender.sendPacket]
    · simp
  · simp only [MtProtoSender.processMsg, h1, hs]
    norm_num [MtProtoSender.handleRpcResult, h1, h2, h3, h4, h5, hf, PResult.stateOf,
      sendAcknowledges_heap]
    exact getReq_setReq_self (findIn_spec hf).2.1 _

theorem c6_witness :
    (BinaryReader.mk (rpcErrorFrame 100 420 [70, 76]) 0).readUInt
        = Except.ok (0xf35c6d01, BinaryReader.mk (rpcErrorFrame 100 420 [70, 76]) 4) ∧
    (BinaryReader.mk (rpcErrorFrame 100 420 [70, 76]) 4).readLong
        = Except.ok (100, BinaryReader.mk (rpcErrorFrame 100 420 [70, 76]) 12) ∧
    (BinaryReader.mk (rpcErrorFrame 100 420 [70, 76]) 12).readUInt
        = Except.ok (0x2144ca19, BinaryReader.mk (rpcErrorFrame 100 420 [70, 76]) 16) ∧
    (BinaryReader.mk (rpcErrorFrame 100 420 [70, 76]) 16).readInt
        = Except.ok (420, BinaryReader.mk (rpcErrorFrame 100 420 [70, 76]) 20) ∧
    (BinaryReader.mk (rpcErrorFrame 100 420 [70, 76]) 20).tgreadBytes
        = Except.ok ([70, 76], BinaryReader.mk (rpcErrorFrame 100 420 [70, 76]) 24) ∧
    findIn st0.heap st0.pendingReceive 100 = some (0, req0) ∧
    ((MtProtoSender.processMsg env0 1 st0 800 0
        (BinaryReader.mk (rpcErrorFrame 100 420 [70, 76]) 0)).stateOf.needConfirmation
      = [] ∧
    (MtProtoSender.processMsg env0 1 st0 800 0
        (BinaryReader.mk (rpcErrorFrame 100 420 [70, 76]) 0)).stateOf.sentPackets
      = st0.sentPackets ++ [serializeMsgsAck (st0.needConfirmation ++ [800] ++ [100])] ∧
    getReq (MtProtoSender.processMsg env0 1 st0 800 0
        (BinaryReader.mk (rpcErrorFrame 100 420 [70, 76]) 0)).stateOf.heap 0
      = some { req0 with
          error := some (rpcMessageToError 420 [70, 76]
            (if st0.session.reportErrors then some req0.constructorId else none)),
          confirmReceived := true }) :=
  ⟨rfl, rfl, rfl, rfl, rfl, rfl,
    c6_rpc_error env0 0 st0 800 0 100 420 0 req0 [70, 76]
      (BinaryReader.mk (rpcErrorFrame 100 420 [70, 76]) 0)
      (BinaryReader.mk (rpcErrorFrame 100 420 [70, 76]) 4)
      (BinaryReader.mk (rpcErrorFrame 100 420 [70, 76]) 12)
      (BinaryReader.mk (rpcErrorFrame 100 420 [70, 76]) 16)
      (BinaryReader.mk (rpcErrorFrame 100 420 [70, 76]) 20)
      (BinaryReader.mk (rpcErrorFrame 100 420 [70, 76]) 24)
      rfl rfl rfl rfl rfl rfl⟩

/-- Claim C2, counterexample: a frame whose payload is gzip_packed
    contributes its msg-id TWICE to the ack queue (outer dispatch and
    recursive dispatch of the decompressed payload), so the next send()
    transmits a leading msgs_ack containing the msg-id twice, not exactly
    once as claimed. -/
theorem c2_counterexample :
    (MtProtoSender.processMsg env0 2 st0 500 0
        (BinaryReader.mk (gzipFrame (pongFrame 999)) 0)).isOk = true ∧
    (MtProtoSender.processMsg env0 2 st0 500 0
        (BinaryReader.mk (gzipFrame (pongFrame 999)) 0)).stateOf.needConfirmation
      = [500, 500] ∧
    ((MtProtoSender.processMsg env0 2 st0 500 0
        (BinaryReader.mk (gzipFrame (pongFrame 999)) 0)).stateOf.send env0 0).sentPackets
      = [serializeMsgsAck [500, 500], req0.body] ∧
    List.count 500 [500, 500] = 2 := by
  refine ⟨rfl, rfl, rfl, rfl⟩

/-- Claim C2 as amended: dispatching a frame appends its remote msg-id M
    to the ack queue before decoding the payload, so a plain frame such
    as a pong contributes M exactly once, while a gzip_packed frame
    contributes M twice (outer and recursive dispatch).  The next send()
    then transmits a leading msgs_ack carrying exactly the queued ids,
    never inserts that msgs_ack into the pending table, and leaves the
    ack queue empty. -/
theorem c2_amended :
    (∀ (env : Env) (fuel : Nat) (st : MtProtoSender) (msgId seq m : Int)
        (reader r1 r2 : BinaryReader),
      reader.readUInt = Except.ok (0x347773c5, r1) →
      r1.readLong = Except.ok (m, r2) →
      (MtProtoSender.processMsg env (fuel + 1) st msgId seq reader).isOk = true ∧
      (MtProtoSender.processMsg env (fuel + 1) st msgId seq reader).stateOf.needConfirmation
        = st.needConfirmation ++ [msgId]) ∧
    (∀ (env : Env) (fuel : Nat) (st : MtProtoSender) (msgId seq pm : Int)
        (packed : List Nat) (reader g1 g2 u1 u2 : BinaryReader),
      reader.readUInt = Except.ok (0x3072cfa1, g1) →
      g1.tgreadBytes = Except.ok (packed, g2) →
      (BinaryReader.mk (env.decompress packed) 0).readUInt = Except.ok (0x347773c5, u1) →
      u1.readLong = Except.ok (pm, u2) →
      (MtProtoSender.processMsg env (fuel + 2) st msgId seq reader).isOk = true ∧
      (MtProtoSender.processMsg env (fuel + 2) st msgId seq reader).stateOf.needConfirmation
        = st.needConfirmation ++ [msgId] ++ [msgId]) ∧
    (∀ (env : Env) (st : MtProtoSender) (i : Nat) (r : Request),
      st.needConfirmation ≠ [] →
      getReq st.heap i = some r →
      (st.send env i).sentPackets
        = st.sentPackets ++ [serializeMsgsAck st.needConfirmation] ++ [r.body] ∧
      (st.send env i).needConfirmation = [] ∧
      (st.send env i).pendingReceive = st.pendingReceive ++ [i]) := by
  refine ⟨?_, ?_, ?_⟩
  · intro env fuel st msgId seq m reader r1 r2 h1 h2
    have hs := seek_back_readUInt h1
    cases hf : findIn st.heap st.pendingReceive m with
    | none =>
      constructor <;>
        (simp only [MtProtoSender.processMsg, h1, hs]
         norm_num [MtProtoSender.handlePong, h1, h2, hf, PResult.isOk, PResult.stateOf])
    | some p =>
      constructor <;>
        (simp only [MtProtoSender.processMsg, h1, hs]
         norm_num [MtProtoSender.handlePong, h1, h2, hf, PResult.isOk, PResult.stateOf])
  · intro env fuel st msgId seq pm packed reader g1 g2 u1 u2 h1 h2 h3 h4
    have hs := seek_back_readUInt h1
    have hs3 := seek_back_readUInt h3
    cases hf : findIn st.heap st.pendingReceive pm with
    | none =>
      constructor <;>
        (simp only [MtProtoSender.processMsg, h1, hs]
         norm_num [MtProtoSender.handleGzipPacked, h1, h2]
         simp only [MtProtoSender.processMsg, h3, hs3]
         norm_num [MtProtoSender.handlePong, h3, h4, hf, PResult.isOk, PResult.stateOf])
    | some p =>
      constructor <;>
        (simp only [MtProtoSender.processMsg, h1, hs]
         norm_num [MtProtoSender.handleGzipPacked, h1, h2]
         simp only [MtProtoSender.processMsg, h3, hs3]
         norm_num [MtProtoSender.handlePong, h3, h4, hf, PResult.isOk, PResult.stateOf])
  · intro env st i r hne hr
    unfold MtProtoSender.send
    rw [sendAcknowledges_of_ne env st hne]
    have hr' : getReq ({ (st.sendPacket env (serializeMsgsAck st.needConfirmation) false).2 with
        needConfirmation := ([] : List Int) }).heap i = some r := hr
    simp only [hr']
    refine ⟨?_, ?_, ?_⟩ <;> simp [MtProtoSender.sendPacket, Session.save]

theorem c2_witness :
    (BinaryReader.mk (gzipFrame (pongFrame 999)) 0).readUInt
        = Except.ok (0x3072cfa1, BinaryReader.mk (gzipFrame (pongFrame 999)) 4) ∧
    (BinaryReader.mk (gzipFrame (pongFrame 999)) 4).tgreadBytes
        = Except.ok (pongFrame 999, BinaryReader.mk (gzipFrame (pongFrame 999)) 20) ∧
    (BinaryReader.mk (env0.decompress (pongFrame 999)) 0).readUInt
        = Except.ok (0x347773c5, BinaryReader.mk (pongFrame 999) 4) ∧
    (BinaryReader.mk (pongFrame 999) 4).readLong
        = Except.ok (999, BinaryReader.mk (pongFrame 999) 12) ∧
    ((MtProtoSender.processMsg env0 2 st0 500 0
        (BinaryReader.mk (gzipFrame (pongFrame 999)) 0)).isOk = true ∧
      (MtProtoSender.processMsg env0 2 st0 500 0
        (BinaryReader.mk (gzipFrame (pongFrame 999)) 0)).stateOf.needConfirmation
        = st0.needConfirmation ++ [500] ++ [500]) ∧
    ([(500 : Int), 500] ≠ [] ∧
      getReq st0.heap 0 = some req0) ∧
    (({ st0 with needConfirmation := [500, 500] } : MtProtoSender).send env0 0).sentPackets
        = st0.sentPackets ++ [serializeMsgsAck [500, 500]] ++ [req0.body] ∧
    (({ st0 with needConfirmation := [500, 500] } : MtProtoSender).send env0 0).needConfirmation
        = [] ∧
    (({ st0 with needConfirmation := [500, 500] } : MtProtoSender).send env0 0).pendingReceive
        = st0.pendingReceive ++ [0] :=
  ⟨rfl, rfl, rfl, rfl,
    c2_amended.2.1 env0 0 st0 500 0 999 (pongFrame 999)
      (BinaryReader.mk (gzipFrame (pongFrame 999)) 0)
      (BinaryReader.mk (gzipFrame (pongFrame 999)) 4)
      (BinaryReader.mk (gzipFrame (pongFrame 999)) 20)
      (BinaryReader.mk (pongFrame 999) 4)
      (BinaryReader.mk (pongFrame 999) 12)
      rfl rfl rfl rfl,
    ⟨by decide, rfl⟩,
    c2_amended.2.2 env0 { st0 with needConfirmation := [500, 500] } 0 req0
      (by decide) rfl⟩

theorem send_spec (env : Env) (st : MtProtoSender) (i : Nat) (r : Request)
    (hr : getReq st.heap i = some r) :
    (st.send env i).pendingReceive = st.pendingReceive ++ [i] ∧
    (st.send env i).session.salt = st.session.salt ∧
    ∃ n, getReq (st.send env i).heap i = some { r with requestMsgId := n } ∧
      st.session.lastMsgId < n := by
  unfold MtProtoSender.send
  have hr1 : getReq (st.sendAcknowledges env).heap i = some r := by
    rw [sendAcknowledges_heap]; exact hr
  simp only [hr1]
  refine ⟨?_, ?_, ?_⟩
  · rw [sendPacket_pending, sendAcknowledges_pending]
  · simp only [Session.save]
    rw [sendPacket_salt, sendAcknowledges_salt]
  · refine ⟨((st.sendAcknowledges env).sendPacket env r.body r.contentRelated).1, ?_, ?_⟩
    · rw [sendPacket_heap]
      exact getReq_setReq_self hr1 _
    · exact lt_of_le_of_lt (sendAcknowledges_lastMsgId_ge env st)
        (sendPacket_fst_gt env _ r.body r.contentRelated)

/-- Claim C4, counterexample: handling bad_server_salt for pending
    request 0 (msg-id 100) overwrites the salt and re-sends with a new
    msg-id, but the request is APPENDED to the pending table again: the
    same object now appears twice ([0, 0]), not replaced as claimed. -/
theorem c4_counterexample :
    (MtProtoSender.processMsg env0 1 st0 700 0
        (BinaryReader.mk (badServerSaltFrame 100 0xDEADBEEF) 0)).isOk = true ∧
    (MtProtoSender.processMsg env0 1 st0 700 0
        (BinaryReader.mk (badServerSaltFrame 100 0xDEADBEEF) 0)).stateOf.session.salt
      = 0xDEADBEEF ∧
    (MtProtoSender.processMsg env0 1 st0 700 0
        (BinaryReader.mk (badServerSaltFrame 100 0xDEADBEEF) 0)).stateOf.pendingReceive
      = [0, 0] ∧
    getReq (MtProtoSender.processMsg env0 1 st0 700 0
        (BinaryReader.mk (badServerSaltFrame 100 0xDEADBEEF) 0)).stateOf.heap 0
      = some { req0 with requestMsgId := 108 } ∧
    req0.requestMsgId < 108 := by
  refine ⟨rfl, rfl, rfl, rfl, by decide⟩

/-- Claim C4 as amended: bad_server_salt overwrites session.salt with the
    new salt and re-sends the pending request matching the echoed bad
    msg-id with a new, strictly greater msg-id; the request object
    (mutated in place to the new msg-id) is appended to the pending table
    again, so it now appears twice rather than being replaced. -/
theorem c4_amended (env : Env) (fuel : Nat) (st : MtProtoSender)
    (msgId seq bm bsq bec : Int) (newSalt : Nat) (i : Nat) (r : Request)
    (reader r1 r2 r3 r4 r5 : BinaryReader)
    (h1 : reader.readUInt = Except.ok (0xedab447b, r1))
    (h2 : r1.readLong = Except.ok (bm, r2))
    (h3 : r2.readInt = Except.ok (bsq, r3))
    (h4 : r3.readInt = Except.ok (bec, r4))
    (h5 : r4.readULong = Except.ok (newSalt, r5))
    (hf : findIn st.heap st.pendingReceive bm = some (i, r))
    (hinv : r.requestMsgId ≤ st.session.lastMsgId) :
    (MtProtoSender.processMsg env (fuel + 1) st msgId seq reader).isOk = true ∧
    (MtProtoSender.processMsg env (fuel + 1) st msgId seq reader).stateOf.session.salt
      = newSalt ∧
    i ∈ st.pendingReceive ∧
    (MtProtoSender.processMsg env (fuel + 1) st msgId seq reader).stateOf.pendingReceive
      = st.pendingReceive ++ [i] ∧
    ∃ n, getReq (MtProtoSender.processMsg env (fuel + 1) st msgId seq
          reader).stateOf.heap i = some { r with requestMsgId := n } ∧
      r.requestMsgId < n := by
  have hs := seek_back_readUInt h1
  have hg : getReq st.heap i = some r := (findIn_spec hf).2.1
  refine ⟨?_, ?_, (findIn_spec hf).1, ?_, ?_⟩
  · simp only [MtProtoSender.processMsg, h1, hs]
    norm_num [MtProtoSender.handleBadServerSalt, h1, h2, h3, h4, h5, hf, PResult.isOk]
  · simp only [MtProtoSender.processMsg, h1, hs]
    norm_num [MtProtoSender.handleBadServerSalt, h1, h2, h3, h4, h5, hf, PResult.stateOf]
    exact (send_spec env
      { st with needConfirmation := st.needConfirmation ++ [msgId],
                session := { st.session with salt := newSalt } } i r hg).2.1
  · simp only [MtProtoSender.processMsg, h1, hs]
    norm_num [MtProtoSender.handleBadServerSalt, h1, h2, h3, h4, h5, hf, PResult.stateOf]
    exact (send_spec env
      { st with needConfirmation := st.needConfirmation ++ [msgId],
                session := { st.session with salt := newSalt } } i r hg).1
  · simp only [MtProtoSender.processMsg, h1, hs]
    norm_num [MtProtoSender.handleBadServerSalt, h1, h2, h3, h4, h5, hf, PResult.stateOf]
    obtain ⟨n, hn1, hn2⟩ := (send_spec env
      { st with needConfirmation := st.needConfirmation ++ [msgId],
                session := { st.session with salt := newSalt } } i r hg).2.2
    exact ⟨n, hn1, lt_of_le_of_lt hinv hn2⟩

theorem c4_witness :
    (BinaryReader.mk (badServerSaltFrame 100 0xDEADBEEF) 0).readUInt
        = Except.ok (0xedab447b, BinaryReader.mk (badServerSaltFrame 100 0xDEADBEEF) 4) ∧
    (BinaryReader.mk (badServerSaltFrame 100 0xDEADBEEF) 4).readLong
        = Except.ok (100, BinaryReader.mk (badServerSaltFrame 100 0xDEADBEEF) 12) ∧
    (BinaryReader.mk (badServerSaltFrame 100 0xDEADBEEF) 12).readInt
        = Except.ok (0, BinaryReader.mk (badServerSaltFrame 100 0xDEADBEEF) 16) ∧
    (BinaryReader.mk (badServerSaltFrame 100 0xDEADBEEF) 16).readInt
        = Except.ok (48, BinaryReader.mk (badServerSaltFrame 100 0xDEADBEEF) 20) ∧
    (BinaryReader.mk (badServerSaltFrame 100 0xDEADBEEF) 20).readULong
        = Except.ok (0xDEADBEEF, BinaryReader.mk (badServerSaltFrame 100 0xDEADBEEF) 28) ∧
    findIn st0.heap st0.pendingReceive 100 = some (0, req0) ∧
    req0.requestMsgId ≤ st0.session.lastMsgId ∧
    ((MtProtoSender.processMsg env0 1 st0 700 0
        (BinaryReader.mk (badServerSaltFrame 100 0xDEADBEEF) 0)).isOk = true ∧
      (MtProtoSender.processMsg env0 1 st0 700 0
        (BinaryReader.mk (badServerSaltFrame 100 0xDEADBEEF) 0)).stateOf.session.salt
        = 0xDEADBEEF ∧
      0 ∈ st0.pendingReceive ∧
      (MtProtoSender.processMsg env0 1 st0 700 0
        (BinaryReader.mk (badServerSaltFrame 100 0xDEADBEEF) 0)).stateOf.pendingReceive
        = st0.pendingReceive ++ [0] ∧
      ∃ n, getReq (MtProtoSender.processMsg env0 1 st0 700 0
            (BinaryReader.mk (badServerSaltFrame 100 0xDEADBEEF) 0)).stateOf.heap 0
          = some { req0 with requestMsgId := n } ∧ req0.requestMsgId < n) :=
  ⟨rfl, rfl, rfl, rfl, rfl, rfl, by decide,
    c4_amended env0 0 st0 700 0 100 0 48 0xDEADBEEF 0 req0
      (BinaryReader.mk (badServerSaltFrame 100 0xDEADBEEF) 0)
      (BinaryReader.mk (badServerSaltFrame 100 0xDEADBEEF) 4)
      (BinaryReader.mk (badServerSaltFrame 100 0xDEADBEEF) 12)
      (BinaryReader.mk (badServerSaltFrame 100 0xDEADBEEF) 16)
      (BinaryReader.mk (badServerSaltFrame 100 0xDEADBEEF) 20)
      (BinaryReader.mk (badServerSaltFrame 100 0xDEADBEEF) 28)
      rfl rfl rfl rfl rfl rfl (by decide)⟩

theorem containerLoop_step_true
    (step : MtProtoSender → Int → BinaryReader → PResult (Bool × BinaryReader))
    {n k : Nat} {st st1 : MtProtoSender} {innerId isq ilen : Int}
    {reader r1 r2 r3 rd : BinaryReader}
    (hn : n = k + 1)
    (h1 : reader.readLong = Except.ok (innerId, r1))
    (h2 : r1.readInt = Except.ok (isq, r2))
    (h3 : r2.readInt = Except.ok (ilen, r3))
    (hstep : step st innerId r3 = PResult.ok (true, rd) st1) :
    containerLoop step n st reader = containerLoop step k st1 rd := by
  subst hn
  simp only [containerLoop, h1, h2, h3, hstep]
  norm_num

theorem containerLoop_step_false
    (step : MtProtoSender → Int → BinaryReader → PResult (Bool × BinaryReader))
    {n k : Nat} {st st1 : MtProtoSender} {innerId isq ilen : Int}
    {reader r1 r2 r3 rd : BinaryReader}
    (hn : n = k + 1)
    (h1 : reader.readLong = Except.ok (innerId, r1))
    (h2 : r1.readInt = Except.ok (isq, r2))
    (h3 : r2.readInt = Except.ok (ilen, r3))
    (hstep : step st innerId r3 = PResult.ok (false, rd) st1) :
    containerLoop step n st reader
      = containerLoop step k st1 (rd.setPosition ((r3.pos : Int) + ilen).toNat) := by
  subst hn
  simp only [containerLoop, h1, h2, h3, hstep]
  norm_num

theorem containerLoop_step_err
    (step : MtProtoSender → Int → BinaryReader → PResult (Bool × BinaryReader))
    {n k : Nat} {st st1 : MtProtoSender} {innerId isq ilen : Int} {e : PyErr}
    {reader r1 r2 r3 : BinaryReader}
    (hn : n = k + 1)
    (h1 : reader.readLong = Except.ok (innerId, r1))
    (h2 : r1.readInt = Except.ok (isq, r2))
    (h3 : r2.readInt = Except.ok (ilen, r3))
    (hstep : step st innerId r3 = PResult.err e st1) :
    containerLoop step n st reader = PResult.err e st1 := by
  subst hn
  simp only [containerLoop, h1, h2, h3, hstep]

/-- Claim C3, counterexample: in a container [A, B, C] where A and C are
    pongs for the two pending requests and B is a bad_msg_notification
    with code 99, dispatching B raises; the container re-raises instead
    of skipping, so A is delivered but C is not (request 1 never gets its
    completion signal). -/
theorem c3_counterexample :
    MtProtoSender.processMsg env0 2 st2 600 0
        (BinaryReader.mk (containerFrame
          [(601, pongFrame 100), (602, badMsgFrame 99), (603, pongFrame 200)]) 0)
      = PResult.err (PyErr.badMessage 99)
          { st2 with needConfirmation := [600, 601, 602],
                     heap := [(0, { req0 with confirmReceived := true }), (1, req1)] } ∧
    req1.confirmReceived = false := by
  refine ⟨rfl, rfl⟩

/-- Claim C3 as amended: in a container of inner messages [A, B, C], if B
    carries an unknown constructor code the container advances the reader
    to B's begin position plus its declared inner length and A and C are
    still delivered to their handlers (shown for pong handlers); but if
    dispatching B raises, the container seeks past B and re-raises, so C
    is never dispatched. -/
theorem c3_amended :
    (∀ (env : Env) (fuel : Nat) (st : MtProtoSender) (outerId seq : Int)
        (mA sA lA pA mB sB lB mC sC lC pC : Int) (codeB : Nat)
        (iA : Nat) (rA : Request) (iC : Nat) (rC : Request)
        (reader q1 q2 q3 q4 q5 q6 q7 q8 q9 q10 q11 q12 q13 q14 q15 q16 : BinaryReader),
      reader.readUInt = Except.ok (0x73f1f8dc, q1) →
      q1.readInt = Except.ok (3, q2) →
      q2.readLong = Except.ok (mA, q3) →
      q3.readInt = Except.ok (sA, q4) →
      q4.readInt = Except.ok (lA, q5) →
      q5.readUInt = Except.ok (0x347773c5, q6) →
      q6.readLong = Except.ok (pA, q7) →
      findIn st.heap st.pendingReceive pA = some (iA, rA) →
      q7.readLong = Except.ok (mB, q8) →
      q8.readInt = Except.ok (sB, q9) →
      q9.readInt = Except.ok (lB, q10) →
      q10.readUInt = Except.ok (codeB, q11) →
      codeB ≠ 0xf35c6d01 → codeB ≠ 0x347773c5 → codeB ≠ 0x73f1f8dc →
      codeB ≠ 0x3072cfa1 → codeB ≠ 0xedab447b → codeB ≠ 0xa7eff811 →
      codeB ≠ 0x62d6b459 → env.tlKnown codeB = false →
      (q10.setPosition ((q10.pos : Int) + lB).toNat).readLong = Except.ok (mC, q12) →
      q12.readInt = Except.ok (sC, q13) →
      q13.readInt = Except.ok (lC, q14) →
      q14.readUInt = Except.ok (0x347773c5, q15) →
      q15.readLong = Except.ok (pC, q16) →
      findIn (setReq st.heap iA ({ rA with confirmReceived := true }))
          st.pendingReceive pC = some (iC, rC) →
      MtProtoSender.processMsg env (fuel + 2) st outerId seq reader
        = PResult.ok (true, q16)
            { st with needConfirmation := st.needConfirmation ++ [outerId, mA, mB, mC],
                      heap := setReq (setReq st.heap iA ({ rA with confirmReceived := true }))
                        iC ({ rC with confirmReceived := true }) }) ∧
    (∀ (env : Env) (fuel n : Nat) (st st1 : MtProtoSender)
        (seq innerId isq ilen : Int) (e : PyErr) (reader r1 r2 r3 : BinaryReader),
      reader.readLong = Except.ok (innerId, r1) →
      r1.readInt = Except.ok (isq, r2) →
      r2.readInt = Except.ok (ilen, r3) →
      MtProtoSender.processMsg env fuel st innerId seq r3 = PResult.err e st1 →
      containerLoop (fun s m r => MtProtoSender.processMsg env fuel s m seq r)
          (n + 1) st reader = PResult.err e st1) := by
  constructor
  · intro env fuel st outerId seq mA sA lA pA mB sB lB mC sC lC pC codeB iA rA iC rC
      reader q1 q2 q3 q4 q5 q6 q7 q8 q9 q10 q11 q12 q13 q14 q15 q16
      hc hn hA1 hA2 hA3 hA4 hA5 hfA hB1 hB2 hB3 hB4 hb1 hb2 hb3 hb4 hb5 hb6 hb7 hbt
      hC1 hC2 hC3 hC4 hC5 hfC
    have hsc := seek_back_readUInt hc
    have hsA := seek_back_readUInt hA4
    have hsB := seek_back_readUInt hB4
    have hsC := seek_back_readUInt hC4
    have stepA : MtProtoSender.processMsg env (fuel + 1)
        { st with needConfirmation := st.needConfirmation ++ [outerId] } mA seq q5
      = PResult.ok (true, q7)
          { st with needConfirmation := st.needConfirmation ++ [outerId, mA],
                    heap := setReq st.heap iA ({ rA with confirmReceived := true }) } := by
      simp only [MtProtoSender.processMsg, hA4, hsA]
      norm_num [MtProtoSender.handlePong, hA4, hA5, hfA]
    have stepB : MtProtoSender.processMsg env (fuel + 1)
        { st with needConfirmation := st.needConfirmation ++ [outerId, mA],
                  heap := setReq st.heap iA ({ rA with confirmReceived := true }) } mB seq q10
      = PResult.ok (false, q10)
          { st with needConfirmation := st.needConfirmation ++ [outerId, mA, mB],
                    heap := setReq st.heap iA ({ rA with confirmReceived := true }) } := by
      simp only [MtProtoSender.processMsg, hB4, hsB]
      norm_num [hb1, hb2, hb3, hb4, hb5, hb6, hb7, hbt]
    have stepC : MtProtoSender.processMsg env (fuel + 1)
        { st with needConfirmation := st.needConfirmation ++ [outerId, mA, mB],
                  heap := setReq st.heap iA ({ rA with confirmReceived := true }) } mC seq q14
      = PResult.ok (true, q16)
          { st with needConfirmation := st.needConfirmation ++ [outerId, mA, mB, mC],
                    heap := setReq (setReq st.heap iA ({ rA with confirmReceived := true }))
                      iC ({ rC with confirmReceived := true }) } := by
      simp only [MtProtoSender.processMsg, hC4, hsC]
      norm_num [MtProtoSender.handlePong, hC4, hC5, hfC]
    rw [MtProtoSender.processMsg]
    simp only [hc]
    rw [hsc]
    norm_num [MtProtoSender.handleContainer, hc, hn]
    rw [containerLoop_step_true
      (fun s m r => MtProtoSender.processMsg env (fuel + 1) s m seq r)
      (show Int.toNat 3 = 2 + 1 from rfl) hA1 hA2 hA3 stepA]
    rw [containerLoop_step_false
      (fun s m r => MtProtoSender.processMsg env (fuel + 1) s m seq r)
      (show (2 : Nat) = 1 + 1 from rfl) hB1 hB2 hB3 stepB]
    rw [containerLoop_step_true
      (fun s m r => MtProtoSender.processMsg env (fuel + 1) s m seq r)
      (show (1 : Nat) = 0 + 1 from rfl) hC1 hC2 hC3 stepC]
    simp only [containerLoop]
  · intro env fuel n st st1 seq innerId isq ilen e reader r1 r2 r3 h1 h2 h3 hstep
    exact containerLoop_step_err
      (fun s m r => MtProtoSender.processMsg env fuel s m seq r) rfl h1 h2 h3 hstep

theorem c3_witness :
    findIn st2.heap st2.pendingReceive 100 = some (0, req0) ∧
    findIn (setReq st2.heap 0 ({ req0 with confirmReceived := true }))
        st2.pendingReceive 200 = some (1, req1) ∧
    env0.tlKnown 0x11223344 = false ∧
    MtProtoSender.processMsg env0 2 st2 600 0 (BinaryReader.mk c3bFrame 0)
      = PResult.ok (true, BinaryReader.mk c3bFrame 86)
          { st2 with needConfirmation := st2.needConfirmation ++ [600, 601, 602, 603],
                     heap := setReq (setReq st2.heap 0 ({ req0 with confirmReceived := true }))
                       1 ({ req1 with confirmReceived := true }) } :=
  ⟨rfl, rfl, rfl,
    c3_amended.1 env0 0 st2 600 0 601 0 12 100 602 0 6 603 0 12 200 0x11223344
      0 req0 1 req1
      (BinaryReader.mk c3bFrame 0) (BinaryReader.mk c3bFrame 4)
      (BinaryReader.mk c3bFrame 8) (BinaryReader.mk c3bFrame 16)
      (BinaryReader.mk c3bFrame 20) (BinaryReader.mk c3bFrame 24)
      (BinaryReader.mk c3bFrame 28) (BinaryReader.mk c3bFrame 36)
      (BinaryReader.mk c3bFrame 44) (BinaryReader.mk c3bFrame 48)
      (BinaryReader.mk c3bFrame 52) (BinaryReader.mk c3bFrame 56)
      (BinaryReader.mk c3bFrame 66) (BinaryReader.mk c3bFrame 70)
      (BinaryReader.mk c3bFrame 74) (BinaryReader.mk c3bFrame 78)
      (BinaryReader.mk c3bFrame 86)
      rfl rfl rfl rfl rfl rfl rfl rfl rfl rfl rfl rfl
      (by decide) (by decide) (by decide) (by decide) (by decide) (by decide)
      (by decide) rfl rfl rfl rfl rfl rfl rfl⟩
